import Mathlib

/-!
Shallow embedding of the lg-chromecast cast-bridge core
(src/cast-bridge/src/castv2-server.ts, src/cast-bridge/src/webrtc-signaling.ts,
src/cast-bridge/src/ws-server.ts), and proofs about its framing codec,
per-connection dispatcher, WebRTC signaling relay, display WebSocket slot,
and DER length emitter.

Conventions of the embedding:
* JavaScript JSON values are modelled by `JVal`; numbers are rationals
  (the decimal literals appearing in the source, e.g. 0.05, are exact
  rationals). A missing object property (JS `undefined`) is `Option.none`
  at lookup sites; JSON `null` is `JVal.null`.
* Node `Buffer`s are `List Nat` (byte values).
* Effectful callback invocations (socket writes, WebSocket sends, registered
  callbacks) are modelled as explicit event lists returned by the handlers.
-/

/-- JSON runtime values as produced by JSON.parse / consumed by
JSON.stringify. Numbers are exact rationals. -/
inductive JVal : Type where
  | null : JVal
  | bool : Bool → JVal
  | num : Rat → JVal
  | str : String → JVal
  | arr : List JVal → JVal
  | obj : List (String × JVal) → JVal

/-- Property access `v["k"]`: `none` models JS `undefined` (absent key or
non-object receiver). -/
def jlookup (v : JVal) (k : String) : Option JVal :=
  match v with
  | JVal.obj fields => fields.lookup k
  | _ => none

/-- JS nullish coalescing `x ?? d` where `x` is a possibly-`undefined`
property: both `undefined` (absent) and `null` fall back to the default. -/
def nullish (x : Option JVal) (d : JVal) : JVal :=
  match x with
  | none => d
  | some JVal.null => d
  | some v => v

/-- Shorthand for `v.k ?? d`. -/
def jGetOr (v : JVal) (k : String) (d : JVal) : JVal :=
  nullish (jlookup v k) d

/-- JS optional chaining `o?.k` where `o` is a possibly-`undefined` value. -/
def jChain (o : Option JVal) (k : String) : Option JVal :=
  match o with
  | some w => jlookup w k
  | none => none

/-- JS truthiness: `null`, `false`, `0` and `""` are falsy; objects and
arrays are always truthy. -/
def truthy : JVal → Bool
  | JVal.null => false
  | JVal.bool b => b
  | JVal.num q => q != 0
  | JVal.str s => s != ""
  | JVal.arr _ => true
  | JVal.obj _ => true

/-- Truthiness of a possibly-`undefined` value (`undefined` is falsy). -/
def truthyOpt : Option JVal → Bool
  | none => false
  | some v => truthy v

/-- JS strict comparison `v === "s"` of a runtime value against a string
literal. -/
def jIsStr (v : JVal) (s : String) : Bool :=
  match v with
  | JVal.str t => t == s
  | _ => false

/-- Strict comparison of a possibly-`undefined` value against a string
literal (`undefined === "s"` is false). -/
def jIsStrOpt (o : Option JVal) (s : String) : Bool :=
  match o with
  | some v => jIsStr v s
  | none => false

/-- Association-list model of a JS `Map`. `mapGet` is `Map.get`. -/
def mapGet {κ α : Type} [DecidableEq κ] (m : List (κ × α)) (k : κ) : Option α :=
  match m with
  | [] => none
  | (k2, v) :: rest => if k2 = k then some v else mapGet rest k

/-- `Map.set`: replace the binding if the key exists, else append. -/
def mapSet {κ α : Type} [DecidableEq κ] (m : List (κ × α)) (k : κ) (v : α) :
    List (κ × α) :=
  match m with
  | [] => [(k, v)]
  | (k2, w) :: rest => if k2 = k then (k2, v) :: rest else (k2, w) :: mapSet rest k v

/-- `Map.delete`. -/
def mapDelete {κ α : Type} [DecidableEq κ] (m : List (κ × α)) (k : κ) :
    List (κ × α) :=
  match m with
  | [] => []
  | (k2, w) :: rest => if k2 = k then rest else (k2, w) :: mapDelete rest k

-- ---------------------------------------------------------------------------
-- DER length emitter (castv2-server.ts:53-58)
-- ---------------------------------------------------------------------------

/-- Function `derLength` (castv2-server.ts:53-58). `none` models the thrown
`Error('DER length > 65535 not supported')`. For the non-negative lengths
involved, the source's `len >> 8` is `len / 256` and `x & 0xff` is `x % 256`. -/
def derLength (len : Nat) : Option (List Nat) :=
  if len > 0xFFFF then none
  else if len < 0x80 then some [len]
  else if len < 0x100 then some [0x81, len]
  else some [0x82, len / 256 % 256, len % 256]

-- ---------------------------------------------------------------------------
-- Frame codec (castv2-server.ts:249-258 and 317-356)
-- ---------------------------------------------------------------------------

/-- The 1 MiB frame-size cap `MAX_MSG_LEN` (castv2-server.ts:340). -/
def MAX_MSG_LEN : Nat := 1024 * 1024

/-- `buf.readUInt32BE(off)`: big-endian 32-bit read (the callers always read
in bounds; out-of-range bytes default to 0 here). -/
def readU32BE (buf : List Nat) (off : Nat) : Nat :=
  buf.getD off 0 * 16777216 + buf.getD (off + 1) 0 * 65536 +
    buf.getD (off + 2) 0 * 256 + buf.getD (off + 3) 0

/-- `frame.writeUInt32BE(n, 0)`: the four big-endian bytes of `n`. -/
def u32be (n : Nat) : List Nat :=
  [n / 16777216 % 256, n / 65536 % 256, n / 256 % 256, n % 256]

/-- Function `encodeMessage` (castv2-server.ts:249-258) with the protobuf
serializer abstracted away: the emitted frame is the 4-byte big-endian length
of the serialized payload followed by the payload itself. -/
def encodeFrame (payload : List Nat) : List Nat :=
  u32be payload.length ++ payload

/-- State of one connection's receive path (castv2-server.ts:317-318 plus the
socket's destroyed flag and the list of successfully decoded messages handed
to the dispatcher, in order). `M` is the type of decoded CastMessages. -/
structure ConnState (M : Type) where
  recvBuf : List Nat
  recvOffset : Nat
  messages : List M
  destroyed : Bool

/-- Initial receive state (castv2-server.ts:317-318): empty buffer, offset 0. -/
def initConn {M : Type} : ConnState M :=
  ⟨[], 0, [], false⟩

/-- The chunk-append step of the data handler (castv2-server.ts:320-336):
reset when the buffer was fully consumed, compact when partially consumed,
otherwise concatenate. Returns the new `(recvBuf, recvOffset)`. -/
def appendChunk (buf : List Nat) (off : Nat) (chunk : List Nat) :
    List Nat × Nat :=
  if off > 0 ∧ off = buf.length then (chunk, 0)
  else if off > 0 then (buf.drop off ++ chunk, 0)
  else (buf ++ chunk, 0)

/-- The frame-parsing `while` loop of the data handler
(castv2-server.ts:338-355, with the per-message dispatch abstracted into
`dec`, which returns `none` when `CastMessage.decode` throws). Returns the
final `recvOffset`, the accumulated decoded messages, and whether
`socket.destroy()` was called (oversized declared length). The buffer itself
is never modified by the loop. -/
def processFrames {M : Type} (dec : List Nat → Option M) (buf : List Nat)
    (off : Nat) (acc : List M) : Nat × List M × Bool :=
  if _h4 : 4 ≤ buf.length - off then
    if readU32BE buf off > MAX_MSG_LEN then (off, acc, true)
    else if buf.length - off < 4 + readU32BE buf off then (off, acc, false)
    else
      processFrames dec buf (off + 4 + readU32BE buf off)
        (match dec ((buf.drop (off + 4)).take (readU32BE buf off)) with
          | some m => acc ++ [m]
          | none => acc)
  else (off, acc, false)
termination_by buf.length - off
decreasing_by omega

/-- One `socket.on('data')` event (castv2-server.ts:320-356). A destroyed
socket receives no further data events. -/
def feedChunk {M : Type} (dec : List Nat → Option M) (st : ConnState M)
    (chunk : List Nat) : ConnState M :=
  if st.destroyed then st
  else
    let bo := appendChunk st.recvBuf st.recvOffset chunk
    let r := processFrames dec bo.1 bo.2 st.messages
    ⟨bo.1, r.1, r.2.1, r.2.2⟩

/-- Delivery of a whole sequence of TCP chunks to one connection. -/
def feedChunks {M : Type} (dec : List Nat → Option M) (st : ConnState M)
    (chunks : List (List Nat)) : ConnState M :=
  chunks.foldl (feedChunk dec) st

/-- Reference greedy parse of a contiguous byte stream, used to state what the
incremental loop computes: returns the unconsumed rest, the decoded messages,
and the destroyed flag. -/
def parseStream {M : Type} (dec : List Nat → Option M) (s : List Nat)
    (acc : List M) : List Nat × List M × Bool :=
  if 4 ≤ s.length then
    if readU32BE s 0 > MAX_MSG_LEN then (s, acc, true)
    else if s.length < 4 + readU32BE s 0 then (s, acc, false)
    else
      parseStream dec (s.drop (4 + readU32BE s 0))
        (match dec ((s.drop 4).take (readU32BE s 0)) with
          | some m => acc ++ [m]
          | none => acc)
  else (s, acc, false)
termination_by s.length
decreasing_by simp; omega

-- ---------------------------------------------------------------------------
-- CastV2 per-connection dispatcher (castv2-server.ts:162-575)
-- ---------------------------------------------------------------------------

/-- Namespace constant (castv2-server.ts:166). -/
def NS_CONNECTION : String := "urn:x-cast:com.google.cast.tp.connection"

/-- Namespace constant (castv2-server.ts:167). -/
def NS_HEARTBEAT : String := "urn:x-cast:com.google.cast.tp.heartbeat"

/-- Namespace constant (castv2-server.ts:168). -/
def NS_RECEIVER : String := "urn:x-cast:com.google.cast.receiver"

/-- Namespace constant (castv2-server.ts:169). -/
def NS_MEDIA : String := "urn:x-cast:com.google.cast.media"

/-- Namespace constant (castv2-server.ts:170). -/
def NS_WEBRTC : String := "urn:x-cast:com.google.cast.webrtc"

/-- Namespace constant (castv2-server.ts:171). -/
def NS_REMOTING : String := "urn:x-cast:com.google.cast.remoting"

/-- Constant `DEFAULT_MEDIA_RECEIVER_APP_ID` (castv2-server.ts:177). -/
def DEFAULT_MEDIA_RECEIVER_APP_ID : String := "CC1AD845"

/-- Function `makeReceiverStatus` (castv2-server.ts:179-204). -/
def makeReceiverStatus (sessionId transportId : String) : JVal :=
  JVal.obj [
    ("applications", JVal.arr [JVal.obj [
      ("appId", JVal.str DEFAULT_MEDIA_RECEIVER_APP_ID),
      ("displayName", JVal.str "Default Media Receiver"),
      ("namespaces", JVal.arr [
        JVal.obj [("name", JVal.str NS_MEDIA)],
        JVal.obj [("name", JVal.str NS_WEBRTC)],
        JVal.obj [("name", JVal.str NS_REMOTING)],
        JVal.obj [("name", JVal.str "urn:x-cast:com.google.cast.debugoverlay")]]),
      ("sessionId", JVal.str sessionId),
      ("statusText", JVal.str ""),
      ("transportId", JVal.str transportId),
      ("isIdleScreen", JVal.bool false)]]),
    ("volume", JVal.obj [
      ("controlType", JVal.str "attenuation"),
      ("level", JVal.num 1),
      ("muted", JVal.bool false),
      ("stepInterval", JVal.num (1/20))])]

/-- Structure `MediaState` (castv2-server.ts:210-217). Fields whose runtime
values come unchecked from sender JSON (`currentTime`, media descriptor
entries, volume level/muted) are kept as `JVal`. -/
structure MediaInfo where
  contentId : JVal
  contentType : JVal
  streamType : JVal

/-- Volume sub-state of `MediaState` (castv2-server.ts:216). -/
structure VolumeState where
  level : JVal
  muted : JVal

/-- Per-connection media state (castv2-server.ts:210-217). -/
structure MediaState where
  mediaSessionId : Int
  media : Option MediaInfo
  currentTime : JVal
  playerState : String
  supportedMediaCommands : Nat
  volume : VolumeState

/-- Function `makeDefaultMediaState` (castv2-server.ts:219-228). -/
def makeDefaultMediaState : MediaState :=
  { mediaSessionId := 1
    media := none
    currentTime := JVal.num 0
    playerState := "IDLE"
    supportedMediaCommands := 0b1111111
    volume := { level := JVal.num 1, muted := JVal.bool false } }

/-- Function `makeMediaStatus` (castv2-server.ts:230-243). -/
def makeMediaStatus (state : MediaState) : JVal :=
  JVal.obj ([
    ("mediaSessionId", JVal.num (state.mediaSessionId : Rat)),
    ("playbackRate", JVal.num 1),
    ("playerState", JVal.str state.playerState),
    ("currentTime", state.currentTime),
    ("supportedMediaCommands", JVal.num (state.supportedMediaCommands : Rat)),
    ("volume", JVal.obj [("level", state.volume.level), ("muted", state.volume.muted)])]
    ++ (match state.media with
        | some m => [("media", JVal.obj [
            ("contentId", m.contentId),
            ("contentType", m.contentType),
            ("streamType", m.streamType)])]
        | none => []))

/-- Decoded CastMessage as seen by the dispatcher (castv2-server.ts:350-368).
`payloadParsed` is the outcome of `JSON.parse(payloadUtf8)`; `none` models a
parse failure (the source then keeps `payload = {}`). `payloadType = 0`
covers both the numeric enum value and protobufjs's `toJSON` name
`"STRING"` for it. `nspace` is the source's `namespace` field, which is a
reserved word in Lean. -/
structure InMsg where
  sourceId : String
  destinationId : String
  nspace : String
  payloadType : Nat
  payloadParsed : Option JVal

/-- Effective `payload` after castv2-server.ts:360-368: the parsed JSON when
the payload is a string type and parses, `{}` otherwise. -/
def effectivePayload (msg : InMsg) : JVal :=
  if msg.payloadType = 0 then
    match msg.payloadParsed with
    | some p => p
    | none => JVal.obj []
  else JVal.obj []

/-- Extraction `requestId = (payload.requestId as number) ?? 0`
(castv2-server.ts:370). The `as number` cast is erased at runtime, so a
non-number value passes through unchanged. -/
def requestIdOf (payload : JVal) : JVal :=
  jGetOr payload "requestId" (JVal.num 0)

/-- One protocol reply written to the TLS socket via `sendJsonMessage`
(castv2-server.ts:260-276) or the prebuilt buffers (282-302): the reply's
`sourceId`, `destinationId`, `namespace` and JSON payload. -/
structure Reply where
  sourceId : String
  destinationId : String
  nspace : String
  payload : JVal

/-- Result of dispatching one decoded message: the replies written to the
socket (in order), the successor media state, the `onMediaCommand` payloads
emitted (in order), and, for a WebRTC OFFER, the `sendAnswer`/`sendCandidate`
closures handed to `onWebrtcOffer` (castv2-server.ts:519-533); each closure
returns the reply it would write. Other external callback invocations
(`onWebrtcOffer` itself, `onIceCandidate`, `onMirroringStop`) carry no state
and are not claims' subject, so they are not recorded. -/
structure StepResult where
  replies : List Reply
  state : MediaState
  commands : List JVal
  offerHooks : Option ((String → Reply) × (JVal → Reply))

/-- A StepResult that does nothing but keep the state. -/
def noStep (st : MediaState) : StepResult :=
  { replies := [], state := st, commands := [], offerHooks := none }

/-- Case `NS_CONNECTION` of the dispatch switch (castv2-server.ts:374-381). -/
def handleConnectionNs (dst src : String) (payload requestId : JVal)
    (st : MediaState) : StepResult :=
  let msgType := jGetOr payload "type" (JVal.str "")
  if jIsStr msgType "CONNECT" then
    { replies := [⟨dst, src, NS_CONNECTION,
        JVal.obj [("type", JVal.str "CONNECTED"), ("requestId", requestId)]⟩],
      state := st, commands := [], offerHooks := none }
  else noStep st

/-- Case `NS_HEARTBEAT` of the dispatch switch (castv2-server.ts:384-389),
with the literal PONG payload of `buildPongBuffer` (castv2-server.ts:282-291). -/
def handleHeartbeatNs (dst src : String) (payload : JVal)
    (st : MediaState) : StepResult :=
  if jIsStrOpt (jlookup payload "type") "PING" then
    { replies := [⟨dst, src, NS_HEARTBEAT, JVal.obj [("type", JVal.str "PONG")]⟩],
      state := st, commands := [], offerHooks := none }
  else noStep st

/-- Case `NS_RECEIVER` of the dispatch switch (castv2-server.ts:392-417). -/
def handleReceiverNs (dst src : String) (payload requestId : JVal)
    (st : MediaState) (sessionId transportId : String) : StepResult :=
  let msgType := jGetOr payload "type" (JVal.str "")
  if jIsStr msgType "GET_STATUS" then
    { replies := [⟨dst, src, NS_RECEIVER,
        JVal.obj [("type", JVal.str "RECEIVER_STATUS"), ("requestId", requestId),
          ("status", makeReceiverStatus sessionId transportId)]⟩],
      state := st, commands := [], offerHooks := none }
  else if jIsStr msgType "LAUNCH" then
    { replies := [⟨dst, src, NS_RECEIVER,
        JVal.obj [("type", JVal.str "RECEIVER_STATUS"), ("requestId", requestId),
          ("status", makeReceiverStatus sessionId transportId)]⟩],
      state := st, commands := [], offerHooks := none }
  else if jIsStr msgType "STOP" then
    let st2 := { st with playerState := "IDLE", media := none }
    { replies := [⟨dst, src, NS_RECEIVER,
        JVal.obj [("type", JVal.str "RECEIVER_STATUS"), ("requestId", requestId),
          ("status", makeReceiverStatus sessionId transportId)]⟩],
      state := st2,
      commands := [JVal.obj [("type", JVal.str "stop"), ("requestId", requestId)]],
      offerHooks := none }
  else noStep st

/-- The MEDIA_STATUS reply shared by every media branch
(castv2-server.ts:424-428 and later). -/
def mediaStatusReply (dst src : String) (requestId : JVal) (st : MediaState) :
    Reply :=
  ⟨dst, src, NS_MEDIA,
    JVal.obj [("type", JVal.str "MEDIA_STATUS"), ("requestId", requestId),
      ("status", JVal.arr [makeMediaStatus st])]⟩

/-- Case `NS_MEDIA` of the dispatch switch (castv2-server.ts:420-508). -/
def handleMediaNs (dst src : String) (payload requestId : JVal)
    (st : MediaState) : StepResult :=
  let msgType := jGetOr payload "type" (JVal.str "")
  if jIsStr msgType "GET_STATUS" then
    { replies := [mediaStatusReply dst src requestId st],
      state := st, commands := [], offerHooks := none }
  else if jIsStr msgType "LOAD" then
    let mediaInfo := jlookup payload "media"
    let contentId := nullish (jChain mediaInfo "contentId")
        (nullish (jChain mediaInfo "url") (JVal.str ""))
    let contentType := nullish (jChain mediaInfo "contentType") (JVal.str "video/mp4")
    let streamType := nullish (jChain mediaInfo "streamType") (JVal.str "BUFFERED")
    let st2 := { st with
      media := some ⟨contentId, contentType, streamType⟩
      playerState := "PLAYING"
      currentTime := jGetOr payload "currentTime" (JVal.num 0)
      mediaSessionId := st.mediaSessionId + 1 }
    { replies := [mediaStatusReply dst src requestId st2],
      state := st2,
      commands := [JVal.obj [("type", JVal.str "load"), ("url", contentId),
        ("contentType", contentType), ("currentTime", st2.currentTime),
        ("requestId", requestId)]],
      offerHooks := none }
  else if jIsStr msgType "PLAY" then
    let st2 := { st with playerState := "PLAYING" }
    { replies := [mediaStatusReply dst src requestId st2],
      state := st2,
      commands := [JVal.obj [("type", JVal.str "play"), ("requestId", requestId)]],
      offerHooks := none }
  else if jIsStr msgType "PAUSE" then
    let st2 := { st with playerState := "PAUSED" }
    { replies := [mediaStatusReply dst src requestId st2],
      state := st2,
      commands := [JVal.obj [("type", JVal.str "pause"), ("requestId", requestId)]],
      offerHooks := none }
  else if jIsStr msgType "SEEK" then
    let st2 := { st with currentTime := jGetOr payload "currentTime" (JVal.num 0) }
    { replies := [mediaStatusReply dst src requestId st2],
      state := st2,
      commands := [JVal.obj [("type", JVal.str "seek"),
        ("currentTime", st2.currentTime), ("requestId", requestId)]],
      offerHooks := none }
  else if jIsStr msgType "STOP" then
    let st2 := { st with playerState := "IDLE", media := none }
    { replies := [mediaStatusReply dst src requestId st2],
      state := st2,
      commands := [JVal.obj [("type", JVal.str "stop"), ("requestId", requestId)]],
      offerHooks := none }
  else if jIsStr msgType "SET_VOLUME" || jIsStr msgType "VOLUME" then
    let vol := jlookup payload "volume"
    let v := st.volume
    let v2 := if truthyOpt vol then
        { level := match jChain vol "level" with
            | some (JVal.num q) => JVal.num q
            | _ => v.level
          muted := match jChain vol "muted" with
            | some (JVal.bool b) => JVal.bool b
            | _ => v.muted : VolumeState }
      else v
    let st2 := { st with volume := v2 }
    { replies := [mediaStatusReply dst src requestId st2],
      state := st2,
      commands := [JVal.obj [("type", JVal.str "volume"),
        ("volume", st2.volume.level), ("requestId", requestId)]],
      offerHooks := none }
  else noStep st

/-- Case `NS_WEBRTC` of the dispatch switch (castv2-server.ts:511-546). The
two closures are those passed to `onWebrtcOffer`; they capture the swapped
ids and the offer's `seqNum`. -/
def handleWebrtcNs (dst src : String) (payload : JVal)
    (st : MediaState) : StepResult :=
  let msgType := jGetOr payload "type" (JVal.str "")
  if jIsStr msgType "OFFER" then
    let seqNum := jGetOr payload "seqNum" (JVal.num 0)
    { replies := [], state := st, commands := [],
      offerHooks := some (
        fun answerSdp => ⟨dst, src, NS_WEBRTC,
          JVal.obj [("type", JVal.str "ANSWER"), ("seqNum", seqNum),
            ("answer", JVal.obj [("sdp", JVal.str answerSdp)])]⟩,
        fun candidate => ⟨dst, src, NS_WEBRTC,
          JVal.obj [("type", JVal.str "ICE_CANDIDATE"), ("seqNum", seqNum),
            ("candidate", candidate)]⟩) }
  else noStep st

/-- Case `NS_REMOTING` of the dispatch switch (castv2-server.ts:549-571). -/
def handleRemotingNs (dst src : String) (payload : JVal)
    (st : MediaState) : StepResult :=
  let msgType := jGetOr payload "type" (JVal.str "")
  if jIsStr msgType "SETUP" then
    { replies := [⟨dst, src, NS_REMOTING, JVal.obj [("type", JVal.str "SETUP_OK")]⟩],
      state := st, commands := [], offerHooks := none }
  else if jIsStr msgType "START" then
    { replies := [⟨dst, src, NS_REMOTING, JVal.obj [("type", JVal.str "START_OK")]⟩],
      state := st, commands := [], offerHooks := none }
  else if jIsStr msgType "STOP" then
    { replies := [⟨dst, src, NS_REMOTING, JVal.obj [("type", JVal.str "STOP_OK")]⟩],
      state := st, commands := [], offerHooks := none }
  else noStep st

/-- Dispatch of one decoded CastMessage (castv2-server.ts:357-575): field
extraction, payload parse fallback, requestId extraction, then the
namespace switch. -/
def dispatchMessage (msg : InMsg) (st : MediaState)
    (sessionId transportId : String) : StepResult :=
  let src := msg.sourceId
  let dst := msg.destinationId
  let payload := effectivePayload msg
  let requestId := requestIdOf payload
  if msg.nspace = NS_CONNECTION then handleConnectionNs dst src payload requestId st
  else if msg.nspace = NS_HEARTBEAT then handleHeartbeatNs dst src payload st
  else if msg.nspace = NS_RECEIVER then
    handleReceiverNs dst src payload requestId st sessionId transportId
  else if msg.nspace = NS_MEDIA then handleMediaNs dst src payload requestId st
  else if msg.nspace = NS_WEBRTC then handleWebrtcNs dst src payload st
  else if msg.nspace = NS_REMOTING then handleRemotingNs dst src payload st
  else noStep st

-- ---------------------------------------------------------------------------
-- WebRTC signaling relay (webrtc-signaling.ts)
-- ---------------------------------------------------------------------------

/-- Interface `SdpInit` (webrtc-signaling.ts:7-10). The `sdp` field comes
unchecked from runtime JSON, so it is a `JVal`. -/
structure SdpInit where
  type : String
  sdp : JVal

/-- Interface `SignalingSession` (webrtc-signaling.ts:12-19); `lastActivity`
is `Date.now()` in milliseconds. -/
structure SignalingSession where
  offer : Option SdpInit
  answer : Option SdpInit
  pendingSenderCandidates : List JVal
  source : String
  lastActivity : Nat

/-- State owned by `createSignalingRelay` (webrtc-signaling.ts:36-38): the
session map and the registered callbacks. `CB`/`DCB` are opaque handles for
the registered answer-ready and display-candidate callbacks. -/
structure RelayState (CB DCB : Type) where
  sessions : List (String × SignalingSession)
  answerCallbacks : List CB
  displayCandidateCallbacks : List DCB

/-- Observable effects of the relay: a `wsServer.sendCommand` to the display,
or the invocation of one registered callback with its arguments. -/
inductive RelayEvent (CB DCB : Type) where
  | wsSend (cmd : JVal)
  | answerReady (cb : CB) (sessionId : JVal) (sdp : JVal)
  | displayCandidate (cb : DCB) (sessionId : JVal) (candidate : JVal)

/-- `sessions.get` with a runtime value as key (webrtc-signaling.ts:79, 105):
the map only ever holds string keys (set in `getOrCreateSession`), so any
non-string key misses. -/
def mapGetJ {α : Type} (m : List (String × α)) (k : JVal) : Option α :=
  match k with
  | JVal.str s => mapGet m s
  | _ => none

/-- `sessions.set` of the (mutated-in-place) session under a runtime key;
only reachable when the key is a string that is already present. -/
def mapSetJ {α : Type} (m : List (String × α)) (k : JVal) (v : α) :
    List (String × α) :=
  match k with
  | JVal.str s => mapSet m s v
  | _ => m

/-- Function `getOrCreateSession` (webrtc-signaling.ts:56-68). Returns the
session and the possibly-extended map. -/
def getOrCreateSession (sessions : List (String × SignalingSession))
    (sessionId source : String) (now : Nat) :
    SignalingSession × List (String × SignalingSession) :=
  match mapGet sessions sessionId with
  | some session => (session, sessions)
  | none =>
    let session : SignalingSession :=
      { offer := none, answer := none, pendingSenderCandidates := [],
        source := source, lastActivity := now }
    (session, mapSet sessions sessionId session)

/-- Method `handleOffer` (webrtc-signaling.ts:120-128). -/
def handleOffer {CB DCB : Type} (st : RelayState CB DCB) (now : Nat)
    (sessionId : String) (sdp : JVal) (source : String) :
    RelayState CB DCB × List (RelayEvent CB DCB) :=
  let sm := getOrCreateSession st.sessions sessionId source now
  let session := { sm.1 with offer := some ⟨"offer", sdp⟩, lastActivity := now }
  ({ st with sessions := mapSet sm.2 sessionId session },
   [RelayEvent.wsSend (JVal.obj [("type", JVal.str "webrtc-offer"),
      ("sessionId", JVal.str sessionId), ("sdp", sdp)])])

/-- Method `handleSenderCandidate` (webrtc-signaling.ts:130-148): unknown
session drops silently; an answered session forwards immediately; otherwise
the candidate is buffered at the tail of the pending queue. -/
def handleSenderCandidate {CB DCB : Type} (st : RelayState CB DCB) (now : Nat)
    (sessionId : String) (candidate : JVal) :
    RelayState CB DCB × List (RelayEvent CB DCB) :=
  match mapGet st.sessions sessionId with
  | none => (st, [])
  | some session =>
    let session := { session with lastActivity := now }
    if session.answer.isSome then
      ({ st with sessions := mapSet st.sessions sessionId session },
       [RelayEvent.wsSend (JVal.obj [("type", JVal.str "ice-candidate"),
          ("sessionId", JVal.str sessionId), ("candidate", candidate)])])
    else
      let session2 :=
        { session with pendingSenderCandidates :=
            session.pendingSenderCandidates ++ [candidate] }
      ({ st with sessions := mapSet st.sessions sessionId session2 }, [])

/-- Method `handleDisplayCandidate` (webrtc-signaling.ts:150-161). -/
def handleDisplayCandidate {CB DCB : Type} (st : RelayState CB DCB) (now : Nat)
    (sessionId : String) (candidate : JVal) :
    RelayState CB DCB × List (RelayEvent CB DCB) :=
  let st2 := match mapGet st.sessions sessionId with
    | some session =>
      let session2 := { session with lastActivity := now }
      { st with sessions := mapSet st.sessions sessionId session2 }
    | none => st
  (st2, st.displayCandidateCallbacks.map
    (fun cb => RelayEvent.displayCandidate cb (JVal.str sessionId) candidate))

/-- Method `closeSession` (webrtc-signaling.ts:171-174). -/
def closeSession {CB DCB : Type} (st : RelayState CB DCB) (sessionId : String) :
    RelayState CB DCB :=
  { st with sessions := mapDelete st.sessions sessionId }

/-- The `wsServer.onStatusUpdate` listener registered by the relay
(webrtc-signaling.ts:73-117). The entry guard `!msg || typeof msg !==
'object' || !msg.type` is equivalent to requiring a truthy `msg.type`
property (every non-object value has no such property). The two `if` blocks
in the source are mutually exclusive since `msg.type` cannot equal both
literals, so they are written as an if/else chain. -/
def relayOnStatusUpdate {CB DCB : Type} (st : RelayState CB DCB) (now : Nat)
    (msg : JVal) : RelayState CB DCB × List (RelayEvent CB DCB) :=
  if ¬ truthyOpt (jlookup msg "type") then (st, [])
  else if jIsStrOpt (jlookup msg "type") "webrtc-answer"
      && truthyOpt (jlookup msg "sessionId") && truthyOpt (jlookup msg "sdp") then
    let sid := (jlookup msg "sessionId").getD JVal.null
    let sdp := (jlookup msg "sdp").getD JVal.null
    match mapGetJ st.sessions sid with
    | some session =>
      let session2 :=
        { session with answer := some ⟨"answer", sdp⟩, lastActivity := now }
      let flushEvents := session2.pendingSenderCandidates.map
        (fun candidate => RelayEvent.wsSend (JVal.obj
          [("type", JVal.str "ice-candidate"), ("sessionId", sid),
           ("candidate", candidate)]))
      let session3 := { session2 with pendingSenderCandidates := [] }
      ({ st with sessions := mapSetJ st.sessions sid session3 },
       flushEvents ++ st.answerCallbacks.map
         (fun cb => RelayEvent.answerReady cb sid sdp))
    | none =>
      (st, st.answerCallbacks.map (fun cb => RelayEvent.answerReady cb sid sdp))
  else if jIsStrOpt (jlookup msg "type") "ice-candidate"
      && truthyOpt (jlookup msg "sessionId") && truthyOpt (jlookup msg "candidate") then
    let sid := (jlookup msg "sessionId").getD JVal.null
    let candidate := (jlookup msg "candidate").getD JVal.null
    let st2 := match mapGetJ st.sessions sid with
      | some session =>
        let session2 := { session with lastActivity := now }
        { st with sessions := mapSetJ st.sessions sid session2 }
      | none => st
    (st2, st.displayCandidateCallbacks.map
      (fun cb => RelayEvent.displayCandidate cb sid candidate))
  else (st, [])

-- ---------------------------------------------------------------------------
-- Display WebSocket server (ws-server.ts)
-- ---------------------------------------------------------------------------

/-- WebSocket readyState values. -/
inductive ReadyState where
  | CONNECTING
  | OPEN
  | CLOSING
  | CLOSED
  deriving DecidableEq

/-- State owned by `startWsServer` (ws-server.ts:17-18) together with the
readyState of every socket it has seen. Sockets are identified by `Nat`. -/
structure WsState where
  tvClient : Option Nat
  senderClients : List (String × Nat)
  readyStates : List (Nat × ReadyState)

/-- Observable effects of the WS server: `ws.close()` with its close code,
or `ws.send(JSON.stringify(cmd))`. -/
inductive WsEvent where
  | close (ws : Nat) (code : Nat)
  | send (ws : Nat) (cmd : JVal)

/-- ReadyState of a socket (unknown sockets count as CLOSED). -/
def wsReadyState (st : WsState) (ws : Nat) : ReadyState :=
  (mapGet st.readyStates ws).getD ReadyState.CLOSED

/-- The display-slot part of the `wss.on('connection')` handler
(ws-server.ts:42-59): the newly accepted socket is OPEN; if the previous TV
client is still OPEN it is closed (`ws.close()` — normal closure, code
1000); the new socket takes the slot unconditionally. -/
def onConnection (st : WsState) (ws : Nat) : WsState × List WsEvent :=
  let st := { st with readyStates := mapSet st.readyStates ws ReadyState.OPEN }
  match st.tvClient with
  | some prev =>
    if wsReadyState st prev = ReadyState.OPEN then
      let st2 :=
        { st with tvClient := some ws,
                  readyStates := mapSet st.readyStates prev ReadyState.CLOSING }
      (st2, [WsEvent.close prev 1000])
    else ({ st with tvClient := some ws }, [])
  | none => ({ st with tvClient := some ws }, [])

/-- Method `sendCommand` (ws-server.ts:111-117): with no open TV client the
command is dropped silently (plain return, no throw); otherwise it is sent
to the TV client. -/
def sendCommand (st : WsState) (cmd : JVal) : WsState × List WsEvent :=
  match st.tvClient with
  | none => (st, [])
  | some tv =>
    if wsReadyState st tv = ReadyState.OPEN then (st, [WsEvent.send tv cmd])
    else (st, [])

-- ---------------------------------------------------------------------------
-- Example inputs used by witnesses
-- ---------------------------------------------------------------------------

/-- A PING request on the heartbeat namespace (spec scenario 1). -/
def pingMsg : InMsg :=
  { sourceId := "sender-0", destinationId := "receiver-0",
    nspace := NS_HEARTBEAT, payloadType := 0,
    payloadParsed := some (JVal.obj [("type", JVal.str "PING")]) }

/-- A LOAD request with requestId 10 (spec scenario 4). -/
def loadMsg : InMsg :=
  { sourceId := "sender-0", destinationId := "receiver-0",
    nspace := NS_MEDIA, payloadType := 0,
    payloadParsed := some (JVal.obj [
      ("type", JVal.str "LOAD"), ("requestId", JVal.num 10),
      ("media", JVal.obj [
        ("contentId", JVal.str "http://example.com/v.mp4"),
        ("contentType", JVal.str "video/mp4"),
        ("streamType", JVal.str "BUFFERED")])]) }

/-- A GET_STATUS request on the receiver namespace with requestId 1
(spec scenario 3). -/
def getStatusMsg : InMsg :=
  { sourceId := "sender-0", destinationId := "receiver-0",
    nspace := NS_RECEIVER, payloadType := 0,
    payloadParsed := some (JVal.obj [
      ("type", JVal.str "GET_STATUS"), ("requestId", JVal.num 1)]) }

/-- A concrete relay state for witnesses: one offered session "s1" with two
buffered sender candidates and no answer yet, and one registered
answer-ready callback (handle 7). -/
def relayStEx : RelayState Nat Nat :=
  { sessions := [("s1",
      { offer := some ⟨"offer", JVal.str "v=0"⟩, answer := none,
        pendingSenderCandidates := [JVal.str "c1", JVal.str "c2"],
        source := "cast", lastActivity := 0 })],
    answerCallbacks := [7],
    displayCandidateCallbacks := [] }

/-- A concrete relay state for witnesses: no sessions, one registered
answer-ready callback (handle 7). -/
def relayStEmpty : RelayState Nat Nat :=
  { sessions := [], answerCallbacks := [7], displayCandidateCallbacks := [] }

/-- A concrete WS server state for witnesses: socket 1 holds the display
slot and is OPEN. -/
def wsStEx : WsState :=
  { tvClient := some 1, senderClients := [],
    readyStates := [(1, ReadyState.OPEN)] }

/-- Abstract view of a connection's receive state used by the streaming
lemmas: the unread tail of the buffer, the decoded messages, the destroyed
flag. -/
def absConn {M : Type} (st : ConnState M) : List Nat × List M × Bool :=
  (st.recvBuf.drop st.recvOffset, st.messages, st.destroyed)

/-- Abstract single-chunk step: a destroyed connection ignores input,
otherwise the unread tail plus the chunk is reparsed greedily. -/
def feedAbs {M : Type} (dec : List Nat → Option M)
    (a : List Nat × List M × Bool) (c : List Nat) : List Nat × List M × Bool :=
  if a.2.2 then a else parseStream dec (a.1 ++ c) a.2.1

/-- Toy one-byte message codec used only by framing witnesses. -/
def decByte : List Nat → Option Nat
  | [n] => some n
  | _ => none

/-- Toy one-byte message encoder used only by framing witnesses. -/
def encByte (n : Nat) : List Nat := [n]

-- ===========================================================================
-- Theorems
-- ===========================================================================

/-- Claim C9: the DER length emitter encodes a content length L as the single
byte [L] when L < 128, as [0x81, L] when 128 ≤ L < 256, as [0x82, hi, lo]
(hi = L / 256, lo = L % 256) when 256 ≤ L < 65536, and throws for every
L ≥ 65536. -/
theorem derLength_cases (L : Nat) :
    (L < 128 → derLength L = some [L]) ∧
    (128 ≤ L → L < 256 → derLength L = some [0x81, L]) ∧
    (256 ≤ L → L < 65536 → derLength L = some [0x82, L / 256, L % 256]) ∧
    (65536 ≤ L → derLength L = none) := by
  unfold derLength
  refine ⟨fun h => ?_, fun h1 h2 => ?_, fun h1 h2 => ?_, fun h => ?_⟩
  · rw [if_neg (by omega), if_pos (by omega)]
  · rw [if_neg (by omega), if_neg (by omega), if_pos (by omega)]
  · rw [if_neg (by omega), if_neg (by omega), if_neg (by omega)]
    have hd : L / 256 % 256 = L / 256 := Nat.mod_eq_of_lt (by omega)
    rw [hd]
  · rw [if_pos (by omega)]

/-- Witness for C9 at the concrete length 300. -/
theorem derLength_cases_witness :
    derLength 300 = some [0x82, 300 / 256, 300 % 256] :=
  (derLength_cases 300).2.2.1 (by decide) (by decide)


-- ---------------------------------------------------------------------------
-- Dispatcher lemmas (shared helpers)
-- ---------------------------------------------------------------------------

theorem handleConnectionNs_swap (dst src : String) (payload requestId : JVal)
    (st : MediaState) :
    ∀ r ∈ (handleConnectionNs dst src payload requestId st).replies,
      r.sourceId = dst ∧ r.destinationId = src := by
  intro r hr
  simp only [handleConnectionNs] at hr
  split at hr <;> simp [noStep] at hr
  subst hr; exact ⟨rfl, rfl⟩

theorem handleHeartbeatNs_swap (dst src : String) (payload : JVal)
    (st : MediaState) :
    ∀ r ∈ (handleHeartbeatNs dst src payload st).replies,
      r.sourceId = dst ∧ r.destinationId = src := by
  intro r hr
  simp only [handleHeartbeatNs] at hr
  split at hr <;> simp [noStep] at hr
  subst hr; exact ⟨rfl, rfl⟩

theorem handleReceiverNs_swap (dst src : String) (payload requestId : JVal)
    (st : MediaState) (sessionId transportId : String) :
    ∀ r ∈ (handleReceiverNs dst src payload requestId st sessionId transportId).replies,
      r.sourceId = dst ∧ r.destinationId = src := by
  intro r hr
  simp only [handleReceiverNs] at hr
  repeat' split at hr
  all_goals simp [noStep] at hr
  all_goals (subst hr; exact ⟨rfl, rfl⟩)

theorem handleMediaNs_swap (dst src : String) (payload requestId : JVal)
    (st : MediaState) :
    ∀ r ∈ (handleMediaNs dst src payload requestId st).replies,
      r.sourceId = dst ∧ r.destinationId = src := by
  intro r hr
  simp only [handleMediaNs] at hr
  repeat' split at hr
  all_goals simp [noStep, mediaStatusReply] at hr
  all_goals (subst hr; exact ⟨rfl, rfl⟩)

theorem handleWebrtcNs_swap (dst src : String) (payload : JVal)
    (st : MediaState) :
    (∀ r ∈ (handleWebrtcNs dst src payload st).replies,
      r.sourceId = dst ∧ r.destinationId = src) ∧
    (∀ hooks, (handleWebrtcNs dst src payload st).offerHooks = some hooks →
      (∀ s, (hooks.1 s).sourceId = dst ∧ (hooks.1 s).destinationId = src) ∧
      (∀ c, (hooks.2 c).sourceId = dst ∧ (hooks.2 c).destinationId = src)) := by
  constructor
  · intro r hr
    simp only [handleWebrtcNs] at hr
    split at hr <;> simp [noStep] at hr
  · intro hooks hh
    simp only [handleWebrtcNs] at hh
    split at hh <;> simp [noStep] at hh
    subst hh
    exact ⟨fun s => ⟨rfl, rfl⟩, fun c => ⟨rfl, rfl⟩⟩

theorem handleRemotingNs_swap (dst src : String) (payload : JVal)
    (st : MediaState) :
    ∀ r ∈ (handleRemotingNs dst src payload st).replies,
      r.sourceId = dst ∧ r.destinationId = src := by
  intro r hr
  simp only [handleRemotingNs] at hr
  repeat' split at hr
  all_goals simp [noStep] at hr
  all_goals (subst hr; exact ⟨rfl, rfl⟩)

theorem handleConnectionNs_hooks (dst src : String) (payload requestId : JVal)
    (st : MediaState) :
    (handleConnectionNs dst src payload requestId st).offerHooks = none := by
  simp only [handleConnectionNs]
  split <;> rfl

theorem handleHeartbeatNs_hooks (dst src : String) (payload : JVal)
    (st : MediaState) :
    (handleHeartbeatNs dst src payload st).offerHooks = none := by
  simp only [handleHeartbeatNs]
  split <;> rfl

theorem handleReceiverNs_hooks (dst src : String) (payload requestId : JVal)
    (st : MediaState) (sessionId transportId : String) :
    (handleReceiverNs dst src payload requestId st sessionId transportId).offerHooks = none := by
  simp only [handleReceiverNs]
  repeat' split
  all_goals rfl

theorem handleMediaNs_hooks (dst src : String) (payload requestId : JVal)
    (st : MediaState) :
    (handleMediaNs dst src payload requestId st).offerHooks = none := by
  simp only [handleMediaNs]
  repeat' split
  all_goals rfl

theorem handleRemotingNs_hooks (dst src : String) (payload : JVal)
    (st : MediaState) :
    (handleRemotingNs dst src payload st).offerHooks = none := by
  simp only [handleRemotingNs]
  repeat' split
  all_goals rfl

theorem jIsStr_eq_true_iff (v : JVal) (s : String) :
    jIsStr v s = true ↔ v = JVal.str s := by
  cases v <;> simp [jIsStr]

theorem handleConnectionNs_state (dst src : String) (payload requestId : JVal)
    (st : MediaState) :
    (handleConnectionNs dst src payload requestId st).state = st := by
  simp only [handleConnectionNs]
  split <;> rfl

theorem handleHeartbeatNs_state (dst src : String) (payload : JVal)
    (st : MediaState) :
    (handleHeartbeatNs dst src payload st).state = st := by
  simp only [handleHeartbeatNs]
  split <;> rfl

theorem handleReceiverNs_msid (dst src : String) (payload requestId : JVal)
    (st : MediaState) (sessionId transportId : String) :
    (handleReceiverNs dst src payload requestId st sessionId transportId).state.mediaSessionId
      = st.mediaSessionId := by
  simp only [handleReceiverNs]
  repeat' split
  all_goals rfl

theorem handleMediaNs_msid (dst src : String) (payload requestId : JVal)
    (st : MediaState) :
    (if jIsStr (jGetOr payload "type" (JVal.str "")) "LOAD" then
      (handleMediaNs dst src payload requestId st).state.mediaSessionId = st.mediaSessionId + 1
    else
      (handleMediaNs dst src payload requestId st).state.mediaSessionId = st.mediaSessionId) := by
  simp only [handleMediaNs]
  repeat' split
  all_goals simp_all [noStep, jIsStr_eq_true_iff]

theorem handleWebrtcNs_state (dst src : String) (payload : JVal)
    (st : MediaState) :
    (handleWebrtcNs dst src payload st).state = st := by
  simp only [handleWebrtcNs]
  split <;> rfl

theorem handleRemotingNs_state (dst src : String) (payload : JVal)
    (st : MediaState) :
    (handleRemotingNs dst src payload st).state = st := by
  simp only [handleRemotingNs]
  repeat' split
  all_goals rfl

theorem handleConnectionNs_types (dst src : String) (payload requestId : JVal)
    (st : MediaState) :
    ∀ r ∈ (handleConnectionNs dst src payload requestId st).replies,
      jlookup r.payload "type" = some (JVal.str "CONNECTED") := by
  intro r hr
  simp only [handleConnectionNs] at hr
  split at hr <;> simp [noStep] at hr
  subst hr; simp [jlookup, List.lookup]

theorem handleHeartbeatNs_types (dst src : String) (payload : JVal)
    (st : MediaState) :
    ∀ r ∈ (handleHeartbeatNs dst src payload st).replies,
      jlookup r.payload "type" = some (JVal.str "PONG") := by
  intro r hr
  simp only [handleHeartbeatNs] at hr
  split at hr <;> simp [noStep] at hr
  subst hr; simp [jlookup, List.lookup]

theorem handleRemotingNs_types (dst src : String) (payload : JVal)
    (st : MediaState) :
    ∀ r ∈ (handleRemotingNs dst src payload st).replies,
      jlookup r.payload "type" = some (JVal.str "SETUP_OK") ∨
      jlookup r.payload "type" = some (JVal.str "START_OK") ∨
      jlookup r.payload "type" = some (JVal.str "STOP_OK") := by
  intro r hr
  simp only [handleRemotingNs] at hr
  repeat' split at hr
  all_goals simp [noStep] at hr
  all_goals (subst hr; simp [jlookup, List.lookup])

theorem handleWebrtcNs_replies (dst src : String) (payload : JVal)
    (st : MediaState) :
    (handleWebrtcNs dst src payload st).replies = [] := by
  simp only [handleWebrtcNs]
  split <;> rfl

theorem handleReceiverNs_reqId (dst src : String) (payload requestId : JVal)
    (st : MediaState) (sessionId transportId : String) :
    ∀ r ∈ (handleReceiverNs dst src payload requestId st sessionId transportId).replies,
      jlookup r.payload "requestId" = some requestId := by
  intro r hr
  simp only [handleReceiverNs] at hr
  repeat' split at hr
  all_goals simp [noStep] at hr
  all_goals (subst hr; simp [jlookup, List.lookup])

theorem handleMediaNs_reqId (dst src : String) (payload requestId : JVal)
    (st : MediaState) :
    ∀ r ∈ (handleMediaNs dst src payload requestId st).replies,
      jlookup r.payload "requestId" = some requestId := by
  intro r hr
  simp only [handleMediaNs] at hr
  repeat' split at hr
  all_goals simp [noStep, mediaStatusReply] at hr
  all_goals (subst hr; simp [jlookup, List.lookup])

theorem dispatchMessage_connection (msg : InMsg) (st : MediaState)
    (sid tid : String) (hn : msg.nspace = NS_CONNECTION) :
    dispatchMessage msg st sid tid =
      handleConnectionNs msg.destinationId msg.sourceId (effectivePayload msg)
        (requestIdOf (effectivePayload msg)) st := by
  simp only [dispatchMessage, hn]
  simp [NS_CONNECTION, NS_HEARTBEAT, NS_RECEIVER, NS_MEDIA, NS_WEBRTC, NS_REMOTING]

theorem dispatchMessage_heartbeat (msg : InMsg) (st : MediaState)
    (sid tid : String) (hn : msg.nspace = NS_HEARTBEAT) :
    dispatchMessage msg st sid tid =
      handleHeartbeatNs msg.destinationId msg.sourceId (effectivePayload msg) st := by
  simp only [dispatchMessage, hn]
  simp [NS_CONNECTION, NS_HEARTBEAT, NS_RECEIVER, NS_MEDIA, NS_WEBRTC, NS_REMOTING]

theorem dispatchMessage_receiver (msg : InMsg) (st : MediaState)
    (sid tid : String) (hn : msg.nspace = NS_RECEIVER) :
    dispatchMessage msg st sid tid =
      handleReceiverNs msg.destinationId msg.sourceId (effectivePayload msg)
        (requestIdOf (effectivePayload msg)) st sid tid := by
  simp only [dispatchMessage, hn]
  simp [NS_CONNECTION, NS_HEARTBEAT, NS_RECEIVER, NS_MEDIA, NS_WEBRTC, NS_REMOTING]

theorem dispatchMessage_media (msg : InMsg) (st : MediaState)
    (sid tid : String) (hn : msg.nspace = NS_MEDIA) :
    dispatchMessage msg st sid tid =
      handleMediaNs msg.destinationId msg.sourceId (effectivePayload msg)
        (requestIdOf (effectivePayload msg)) st := by
  simp only [dispatchMessage, hn]
  simp [NS_CONNECTION, NS_HEARTBEAT, NS_RECEIVER, NS_MEDIA, NS_WEBRTC, NS_REMOTING]

theorem dispatchMessage_webrtc (msg : InMsg) (st : MediaState)
    (sid tid : String) (hn : msg.nspace = NS_WEBRTC) :
    dispatchMessage msg st sid tid =
      handleWebrtcNs msg.destinationId msg.sourceId (effectivePayload msg) st := by
  simp only [dispatchMessage, hn]
  simp [NS_CONNECTION, NS_HEARTBEAT, NS_RECEIVER, NS_MEDIA, NS_WEBRTC, NS_REMOTING]

theorem dispatchMessage_remoting (msg : InMsg) (st : MediaState)
    (sid tid : String) (hn : msg.nspace = NS_REMOTING) :
    dispatchMessage msg st sid tid =
      handleRemotingNs msg.destinationId msg.sourceId (effectivePayload msg) st := by
  simp only [dispatchMessage, hn]
  simp [NS_CONNECTION, NS_HEARTBEAT, NS_RECEIVER, NS_MEDIA, NS_WEBRTC, NS_REMOTING]

theorem dispatchMessage_default (msg : InMsg) (st : MediaState)
    (sid tid : String) (h1 : msg.nspace ≠ NS_CONNECTION)
    (h2 : msg.nspace ≠ NS_HEARTBEAT) (h3 : msg.nspace ≠ NS_RECEIVER)
    (h4 : msg.nspace ≠ NS_MEDIA) (h5 : msg.nspace ≠ NS_WEBRTC)
    (h6 : msg.nspace ≠ NS_REMOTING) :
    dispatchMessage msg st sid tid = noStep st := by
  simp only [dispatchMessage]
  rw [if_neg h1, if_neg h2, if_neg h3, if_neg h4, if_neg h5, if_neg h6]

/-- Claim C2: for every request message received on a CastV2 connection and
every reply the handler emits for it (CONNECTED, PONG, RECEIVER_STATUS,
MEDIA_STATUS, SETUP_OK, START_OK, STOP_OK directly, and ANSWER /
ICE_CANDIDATE through the closures handed to `onWebrtcOffer`), the reply's
sourceId equals the request's destinationId and the reply's destinationId
equals the request's sourceId. -/
theorem reply_swap (msg : InMsg) (st : MediaState) (sid tid : String) :
    (∀ r ∈ (dispatchMessage msg st sid tid).replies,
        r.sourceId = msg.destinationId ∧ r.destinationId = msg.sourceId) ∧
    (∀ hooks, (dispatchMessage msg st sid tid).offerHooks = some hooks →
      (∀ s, (hooks.1 s).sourceId = msg.destinationId ∧
            (hooks.1 s).destinationId = msg.sourceId) ∧
      (∀ c, (hooks.2 c).sourceId = msg.destinationId ∧
            (hooks.2 c).destinationId = msg.sourceId)) := by
  by_cases h1 : msg.nspace = NS_CONNECTION
  · rw [dispatchMessage_connection msg st sid tid h1]
    exact ⟨handleConnectionNs_swap _ _ _ _ _, by
      intro hooks hh
      rw [handleConnectionNs_hooks] at hh
      exact Option.noConfusion hh⟩
  by_cases h2 : msg.nspace = NS_HEARTBEAT
  · rw [dispatchMessage_heartbeat msg st sid tid h2]
    exact ⟨handleHeartbeatNs_swap _ _ _ _, by
      intro hooks hh
      rw [handleHeartbeatNs_hooks] at hh
      exact Option.noConfusion hh⟩
  by_cases h3 : msg.nspace = NS_RECEIVER
  · rw [dispatchMessage_receiver msg st sid tid h3]
    exact ⟨handleReceiverNs_swap _ _ _ _ _ _ _, by
      intro hooks hh
      rw [handleReceiverNs_hooks] at hh
      exact Option.noConfusion hh⟩
  by_cases h4 : msg.nspace = NS_MEDIA
  · rw [dispatchMessage_media msg st sid tid h4]
    exact ⟨handleMediaNs_swap _ _ _ _ _, by
      intro hooks hh
      rw [handleMediaNs_hooks] at hh
      exact Option.noConfusion hh⟩
  by_cases h5 : msg.nspace = NS_WEBRTC
  · rw [dispatchMessage_webrtc msg st sid tid h5]
    exact handleWebrtcNs_swap _ _ _ _
  by_cases h6 : msg.nspace = NS_REMOTING
  · rw [dispatchMessage_remoting msg st sid tid h6]
    exact ⟨handleRemotingNs_swap _ _ _ _, by
      intro hooks hh
      rw [handleRemotingNs_hooks] at hh
      exact Option.noConfusion hh⟩
  · rw [dispatchMessage_default msg st sid tid h1 h2 h3 h4 h5 h6]
    exact ⟨by intro r hr; exact absurd hr (List.not_mem_nil r),
      by intro hooks hh; exact Option.noConfusion hh⟩

/-- Witness for C2: the PONG reply to a concrete PING swaps sourceId and
destinationId. -/
theorem reply_swap_witness :
    (⟨"receiver-0", "sender-0", NS_HEARTBEAT,
        JVal.obj [("type", JVal.str "PONG")]⟩ : Reply).sourceId
        = pingMsg.destinationId ∧
    (⟨"receiver-0", "sender-0", NS_HEARTBEAT,
        JVal.obj [("type", JVal.str "PONG")]⟩ : Reply).destinationId
        = pingMsg.sourceId :=
  (reply_swap pingMsg makeDefaultMediaState "sess" "tr").1 _ (List.mem_singleton.mpr rfl)

/-- Claim C4: `mediaSessionId` is initialized to 1 when the connection is
accepted (`makeDefaultMediaState`), every dispatched LOAD request on the
media namespace increases it by exactly 1 (hence strictly), and dispatching
any other message leaves it unchanged. -/
theorem mediaSessionId_monotone (msg : InMsg) (st : MediaState)
    (sid tid : String) :
    makeDefaultMediaState.mediaSessionId = 1 ∧
    ((msg.nspace = NS_MEDIA ∧
        jIsStr (jGetOr (effectivePayload msg) "type" (JVal.str "")) "LOAD" = true) →
      (dispatchMessage msg st sid tid).state.mediaSessionId = st.mediaSessionId + 1 ∧
      st.mediaSessionId < (dispatchMessage msg st sid tid).state.mediaSessionId) ∧
    (¬(msg.nspace = NS_MEDIA ∧
        jIsStr (jGetOr (effectivePayload msg) "type" (JVal.str "")) "LOAD" = true) →
      (dispatchMessage msg st sid tid).state.mediaSessionId = st.mediaSessionId) := by
  refine ⟨rfl, ?_, ?_⟩
  · rintro ⟨hn, hl⟩
    have key := handleMediaNs_msid msg.destinationId msg.sourceId
      (effectivePayload msg) (requestIdOf (effectivePayload msg)) st
    rw [if_pos hl] at key
    rw [dispatchMessage_media msg st sid tid hn]
    exact ⟨key, by omega⟩
  · intro h
    by_cases h1 : msg.nspace = NS_CONNECTION
    · rw [dispatchMessage_connection msg st sid tid h1, handleConnectionNs_state]
    by_cases h2 : msg.nspace = NS_HEARTBEAT
    · rw [dispatchMessage_heartbeat msg st sid tid h2, handleHeartbeatNs_state]
    by_cases h3 : msg.nspace = NS_RECEIVER
    · rw [dispatchMessage_receiver msg st sid tid h3, handleReceiverNs_msid]
    by_cases h4 : msg.nspace = NS_MEDIA
    · have hl : ¬ jIsStr (jGetOr (effectivePayload msg) "type" (JVal.str "")) "LOAD" = true :=
        fun hl => h ⟨h4, hl⟩
      have key := handleMediaNs_msid msg.destinationId msg.sourceId
        (effectivePayload msg) (requestIdOf (effectivePayload msg)) st
      rw [if_neg hl] at key
      rw [dispatchMessage_media msg st sid tid h4]
      exact key
    by_cases h5 : msg.nspace = NS_WEBRTC
    · rw [dispatchMessage_webrtc msg st sid tid h5, handleWebrtcNs_state]
    by_cases h6 : msg.nspace = NS_REMOTING
    · rw [dispatchMessage_remoting msg st sid tid h6, handleRemotingNs_state]
    · rw [dispatchMessage_default msg st sid tid h1 h2 h3 h4 h5 h6]
      rfl

/-- Witness for C4: a concrete LOAD on a fresh connection moves
mediaSessionId from 1 to 2. -/
theorem mediaSessionId_monotone_witness :
    (dispatchMessage loadMsg makeDefaultMediaState "sess" "tr").state.mediaSessionId
        = makeDefaultMediaState.mediaSessionId + 1 ∧
    makeDefaultMediaState.mediaSessionId
        < (dispatchMessage loadMsg makeDefaultMediaState "sess" "tr").state.mediaSessionId :=
  (mediaSessionId_monotone loadMsg makeDefaultMediaState "sess" "tr").2.1
    ⟨rfl, by decide⟩

/-- Claim C5: every RECEIVER_STATUS and MEDIA_STATUS reply carries the
requestId extracted from the request that produced it; the extraction
yields 0 when the payload has no requestId field; and a malformed
`payloadUtf8` makes the effective payload the empty object, whose extracted
requestId is 0 (dispatch itself is a total function, so processing
continues). -/
theorem requestId_echo (msg : InMsg) (st : MediaState) (sid tid : String) :
    (∀ r ∈ (dispatchMessage msg st sid tid).replies,
      (jlookup r.payload "type" = some (JVal.str "RECEIVER_STATUS") ∨
       jlookup r.payload "type" = some (JVal.str "MEDIA_STATUS")) →
      jlookup r.payload "requestId" = some (requestIdOf (effectivePayload msg))) ∧
    (∀ p : JVal, jlookup p "requestId" = none → requestIdOf p = JVal.num 0) ∧
    (msg.payloadParsed = none →
      effectivePayload msg = JVal.obj [] ∧
      requestIdOf (effectivePayload msg) = JVal.num 0) := by
  refine ⟨?_, ?_, ?_⟩
  · intro r hr hty
    by_cases h1 : msg.nspace = NS_CONNECTION
    · rw [dispatchMessage_connection msg st sid tid h1] at hr
      have := handleConnectionNs_types _ _ _ _ _ r hr
      simp [this] at hty
    by_cases h2 : msg.nspace = NS_HEARTBEAT
    · rw [dispatchMessage_heartbeat msg st sid tid h2] at hr
      have := handleHeartbeatNs_types _ _ _ _ r hr
      simp [this] at hty
    by_cases h3 : msg.nspace = NS_RECEIVER
    · rw [dispatchMessage_receiver msg st sid tid h3] at hr
      exact handleReceiverNs_reqId _ _ _ _ _ _ _ r hr
    by_cases h4 : msg.nspace = NS_MEDIA
    · rw [dispatchMessage_media msg st sid tid h4] at hr
      exact handleMediaNs_reqId _ _ _ _ _ r hr
    by_cases h5 : msg.nspace = NS_WEBRTC
    · rw [dispatchMessage_webrtc msg st sid tid h5, handleWebrtcNs_replies] at hr
      exact absurd hr (List.not_mem_nil r)
    by_cases h6 : msg.nspace = NS_REMOTING
    · rw [dispatchMessage_remoting msg st sid tid h6] at hr
      have := handleRemotingNs_types _ _ _ _ r hr
      rcases this with h | h | h <;> simp [h] at hty
    · rw [dispatchMessage_default msg st sid tid h1 h2 h3 h4 h5 h6] at hr
      exact absurd hr (List.not_mem_nil r)
  · intro p hp
    unfold requestIdOf jGetOr
    rw [hp]
    rfl
  · intro hp
    have he : effectivePayload msg = JVal.obj [] := by
      unfold effectivePayload
      rw [hp]
      split <;> rfl
    exact ⟨he, by rw [he]; rfl⟩

/-- Witness for C5: the RECEIVER_STATUS reply to a concrete GET_STATUS with
requestId 1 carries requestId 1. -/
theorem requestId_echo_witness :
    jlookup (JVal.obj [("type", JVal.str "RECEIVER_STATUS"),
        ("requestId", JVal.num 1),
        ("status", makeReceiverStatus "sess" "tr")]) "requestId"
      = some (requestIdOf (effectivePayload getStatusMsg)) :=
  (requestId_echo getStatusMsg makeDefaultMediaState "sess" "tr").1
    ⟨"receiver-0", "sender-0", NS_RECEIVER,
      JVal.obj [("type", JVal.str "RECEIVER_STATUS"), ("requestId", JVal.num 1),
        ("status", makeReceiverStatus "sess" "tr")]⟩
    (List.mem_singleton.mpr rfl) (Or.inl (by simp [jlookup]))

-- ---------------------------------------------------------------------------
-- Signaling relay theorems
-- ---------------------------------------------------------------------------

/-- Claim C3: for an existing signaling session, `handleSenderCandidate`
forwards the candidate to the display immediately iff the session has
recorded an answer (otherwise the candidate is appended to the session's
pending queue), and when a webrtc-answer for that sessionId arrives from the
display, all pending candidates are sent to the display in their original
insertion (FIFO) order and the queue is emptied. -/
theorem candidate_buffering {CB DCB : Type} (st : RelayState CB DCB)
    (now : Nat) (sid : String) (c : JVal) (session : SignalingSession)
    (hs : mapGet st.sessions sid = some session) :
    (session.answer.isSome = true →
      handleSenderCandidate st now sid c =
        ({ st with sessions := mapSet st.sessions sid ({ session with lastActivity := now }) },
         [RelayEvent.wsSend (JVal.obj [("type", JVal.str "ice-candidate"),
            ("sessionId", JVal.str sid), ("candidate", c)])])) ∧
    (session.answer = none →
      handleSenderCandidate st now sid c =
        ({ st with sessions := mapSet st.sessions sid ({ session with lastActivity := now, pendingSenderCandidates := session.pendingSenderCandidates ++ [c] }) },
         [])) ∧
    (∀ sdp : JVal, sid ≠ "" → truthy sdp = true →
      relayOnStatusUpdate st now (JVal.obj [("type", JVal.str "webrtc-answer"),
          ("sessionId", JVal.str sid), ("sdp", sdp)]) =
        ({ st with sessions := mapSet st.sessions sid ({ session with answer := some ⟨"answer", sdp⟩, lastActivity := now, pendingSenderCandidates := [] }) },
         session.pendingSenderCandidates.map (fun cand => RelayEvent.wsSend
            (JVal.obj [("type", JVal.str "ice-candidate"),
              ("sessionId", JVal.str sid), ("candidate", cand)]))
          ++ st.answerCallbacks.map (fun cb =>
              RelayEvent.answerReady cb (JVal.str sid) sdp))) := by
  refine ⟨?_, ?_, ?_⟩
  · intro ha
    simp only [handleSenderCandidate, hs]
    simp [ha]
  · intro ha
    simp only [handleSenderCandidate, hs]
    simp [ha]
  · intro sdp hsid hsdp
    have h1 : truthy (JVal.str "webrtc-answer") = true := rfl
    have h2 : truthy (JVal.str sid) = true := by simp [truthy, hsid]
    simp only [relayOnStatusUpdate, jlookup, List.lookup]
    simp [truthyOpt, h1, h2, hsdp, jIsStr, jIsStrOpt, mapGetJ, mapSetJ, hs]

/-- Witness for C3 at a concrete state: session "s1" has candidates c1, c2
buffered and no answer; the display's webrtc-answer flushes exactly [c1, c2]
in order, empties the queue, stores the answer, then fires the registered
callback. -/
theorem candidate_buffering_witness :
    relayOnStatusUpdate relayStEx 4 (JVal.obj [("type", JVal.str "webrtc-answer"),
        ("sessionId", JVal.str "s1"), ("sdp", JVal.str "x")]) =
      ({ sessions := [("s1",
            { offer := some ⟨"offer", JVal.str "v=0"⟩,
              answer := some ⟨"answer", JVal.str "x"⟩,
              pendingSenderCandidates := [],
              source := "cast", lastActivity := 4 })],
          answerCallbacks := [7], displayCandidateCallbacks := [] },
       [RelayEvent.wsSend (JVal.obj [("type", JVal.str "ice-candidate"),
          ("sessionId", JVal.str "s1"), ("candidate", JVal.str "c1")]),
        RelayEvent.wsSend (JVal.obj [("type", JVal.str "ice-candidate"),
          ("sessionId", JVal.str "s1"), ("candidate", JVal.str "c2")]),
        RelayEvent.answerReady 7 (JVal.str "s1") (JVal.str "x")]) :=
  (candidate_buffering relayStEx 4 "s1" JVal.null _ rfl).2.2
    (JVal.str "x") (by decide) (by decide)

/-- Claim C10: a well-formed webrtc-answer whose sessionId matches no
existing session still invokes every registered answer-ready callback with
(sessionId, sdp); the relay state is unchanged (no session created, no
answer stored) and nothing is sent to the display (no flush). -/
theorem unknown_session_answer {CB DCB : Type} (st : RelayState CB DCB)
    (now : Nat) (sid : String) (sdp : JVal)
    (hs : mapGet st.sessions sid = none) (hsid : sid ≠ "")
    (hsdp : truthy sdp = true) :
    relayOnStatusUpdate st now (JVal.obj [("type", JVal.str "webrtc-answer"),
        ("sessionId", JVal.str sid), ("sdp", sdp)]) =
      (st, st.answerCallbacks.map
        (fun cb => RelayEvent.answerReady cb (JVal.str sid) sdp)) := by
  have h1 : truthy (JVal.str "webrtc-answer") = true := rfl
  have h2 : truthy (JVal.str sid) = true := by simp [truthy, hsid]
  simp only [relayOnStatusUpdate, jlookup, List.lookup]
  simp [truthyOpt, h1, h2, hsdp, jIsStr, jIsStrOpt, mapGetJ, hs]

/-- Witness for C10: answer for unknown session "s1" on a relay with no
sessions and one registered callback. -/
theorem unknown_session_answer_witness :
    relayOnStatusUpdate relayStEmpty 4 (JVal.obj [("type", JVal.str "webrtc-answer"),
        ("sessionId", JVal.str "s1"), ("sdp", JVal.str "x")]) =
      (relayStEmpty, [RelayEvent.answerReady 7 (JVal.str "s1") (JVal.str "x")]) :=
  unknown_session_answer relayStEmpty 4 "s1" (JVal.str "x") rfl
    (by decide) (by decide)

-- ---------------------------------------------------------------------------
-- Map helper lemmas
-- ---------------------------------------------------------------------------

theorem mapGet_mapSet_self {κ α : Type} [DecidableEq κ] (m : List (κ × α))
    (k : κ) (v : α) : mapGet (mapSet m k v) k = some v := by
  induction m with
  | nil => simp [mapGet, mapSet]
  | cons p rest ih =>
    obtain ⟨k2, w⟩ := p
    by_cases hk : k2 = k
    · subst hk; simp [mapGet, mapSet]
    · simp [mapGet, mapSet, hk, ih]

theorem mapGet_mapSet_ne {κ α : Type} [DecidableEq κ] (m : List (κ × α))
    (k k2 : κ) (v : α) (h : k ≠ k2) :
    mapGet (mapSet m k v) k2 = mapGet m k2 := by
  induction m with
  | nil => simp [mapGet, mapSet, h]
  | cons p rest ih =>
    obtain ⟨k3, w⟩ := p
    by_cases hk : k3 = k
    · subst hk
      simp [mapGet, mapSet, h]
    · simp [mapGet, mapSet, hk, ih]

-- ---------------------------------------------------------------------------
-- Display WebSocket theorems
-- ---------------------------------------------------------------------------

/-- Claim C8: at most one socket holds the display slot (`tvClient` is a
single optional reference, and `sendCommand` emits at most one send, to that
socket). When a new connection B arrives while the current display A is
open, A is closed with a normal close (code 1000) and B takes the slot, so a
subsequent `sendCommand` delivers to B only; `sendCommand` with no open
display returns without sending and without raising. -/
theorem display_slot_single (st : WsState) (A B : Nat) (cmd : JVal)
    (hA : st.tvClient = some A) (hopen : wsReadyState st A = ReadyState.OPEN)
    (hne : A ≠ B) :
    ((onConnection st B).2 = [WsEvent.close A 1000]) ∧
    ((onConnection st B).1.tvClient = some B) ∧
    ((sendCommand (onConnection st B).1 cmd).2 = [WsEvent.send B cmd]) ∧
    (∀ st2 : WsState, st2.tvClient = none → sendCommand st2 cmd = (st2, [])) ∧
    (∀ (st2 : WsState) (tv : Nat), st2.tvClient = some tv →
      wsReadyState st2 tv ≠ ReadyState.OPEN → sendCommand st2 cmd = (st2, [])) ∧
    (∀ (st2 : WsState) (e : WsEvent), e ∈ (sendCommand st2 cmd).2 →
      ∃ tv, st2.tvClient = some tv ∧ e = WsEvent.send tv cmd) := by
  have hgetB : mapGet (mapSet st.readyStates B ReadyState.OPEN) A
      = mapGet st.readyStates A :=
    mapGet_mapSet_ne _ _ _ _ (Ne.symm hne)
  simp only [wsReadyState] at hopen
  have hconn : onConnection st B =
      ({ st with tvClient := some B, readyStates := mapSet (mapSet st.readyStates B ReadyState.OPEN) A ReadyState.CLOSING },
       [WsEvent.close A 1000]) := by
    simp only [onConnection, hA]
    simp [wsReadyState, hgetB, hopen]
  have hgetBB : mapGet (mapSet (mapSet st.readyStates B ReadyState.OPEN) A ReadyState.CLOSING) B
      = some ReadyState.OPEN := by
    rw [mapGet_mapSet_ne _ _ _ _ hne, mapGet_mapSet_self]
  refine ⟨by rw [hconn], by rw [hconn], ?_, ?_, ?_, ?_⟩
  · rw [hconn]
    simp only [sendCommand]
    simp [wsReadyState, hgetBB]
  · intro st2 h0
    simp [sendCommand, h0]
  · intro st2 tv htv hnotopen
    simp [sendCommand, htv, hnotopen]
  · intro st2 e he
    simp only [sendCommand] at he
    rcases hcase : st2.tvClient with _ | tv
    · rw [hcase] at he
      simp at he
    · rw [hcase] at he
      dsimp only at he
      by_cases hop : wsReadyState st2 tv = ReadyState.OPEN
      · rw [if_pos hop] at he
        simp at he
        exact ⟨tv, rfl, he⟩
      · rw [if_neg hop] at he
        simp at he

/-- Witness for C8: socket 1 is the open display; socket 2 connects, 1 is
closed normally, and a pause command goes to 2 only. -/
theorem display_slot_single_witness :
    ((onConnection wsStEx 2).2 = [WsEvent.close 1 1000]) ∧
    ((onConnection wsStEx 2).1.tvClient = some 2) ∧
    ((sendCommand (onConnection wsStEx 2).1 (JVal.obj [("type", JVal.str "pause")])).2
        = [WsEvent.send 2 (JVal.obj [("type", JVal.str "pause")])]) :=
  let h := display_slot_single wsStEx 1 2 (JVal.obj [("type", JVal.str "pause")])
    rfl rfl (by decide)
  ⟨h.1, h.2.1, h.2.2.1⟩

-- ---------------------------------------------------------------------------
-- Framing lemmas (shared helpers)
-- ---------------------------------------------------------------------------

theorem getD_drop (buf : List Nat) (off i : Nat) :
    (buf.drop off).getD i 0 = buf.getD (off + i) 0 := by
  simp [List.getD, List.getElem?_drop]

theorem readU32BE_drop (buf : List Nat) (off : Nat) :
    readU32BE (buf.drop off) 0 = readU32BE buf off := by
  unfold readU32BE
  rw [show (0 : Nat) + 1 = 1 from rfl, show (0 : Nat) + 2 = 2 from rfl,
    show (0 : Nat) + 3 = 3 from rfl] at *
  rw [getD_drop buf off 0, getD_drop buf off 1, getD_drop buf off 2, getD_drop buf off 3]
  norm_num

theorem getD_append_left (s t : List Nat) (i : Nat) (h : i < s.length) :
    (s ++ t).getD i 0 = s.getD i 0 := by
  simp [List.getD, List.getElem?_append_left h]

theorem readU32BE_append (s t : List Nat) (h : 4 ≤ s.length) :
    readU32BE (s ++ t) 0 = readU32BE s 0 := by
  unfold readU32BE
  rw [getD_append_left s t 0 (by omega), getD_append_left s t 1 (by omega),
    getD_append_left s t 2 (by omega), getD_append_left s t 3 (by omega)]

theorem u32be_length (n : Nat) : (u32be n).length = 4 := rfl

theorem readU32BE_u32be (n : Nat) (rest : List Nat) (h : n < 4294967296) :
    readU32BE (u32be n ++ rest) 0 = n := by
  simp [readU32BE, u32be, List.getD]
  omega

theorem processFrames_parseStream {M : Type} (dec : List Nat → Option M) :
    ∀ (n : Nat) (buf : List Nat) (off : Nat) (acc : List M),
      buf.length - off ≤ n → off ≤ buf.length →
      (processFrames dec buf off acc).2 = (parseStream dec (buf.drop off) acc).2 ∧
      (processFrames dec buf off acc).1 ≤ buf.length ∧
      buf.drop (processFrames dec buf off acc).1 = (parseStream dec (buf.drop off) acc).1 := by
  intro n
  induction n with
  | zero =>
    intro buf off acc hn hoff
    rw [processFrames, parseStream, List.length_drop]
    rw [dif_neg (by omega), if_neg (by omega)]
    exact ⟨rfl, hoff, rfl⟩
  | succ n ih =>
    intro buf off acc hn hoff
    rw [processFrames, parseStream, List.length_drop, readU32BE_drop]
    by_cases h4 : 4 ≤ buf.length - off
    · rw [dif_pos h4, if_pos h4]
      by_cases hmax : readU32BE buf off > MAX_MSG_LEN
      · rw [if_pos hmax, if_pos hmax]
        exact ⟨rfl, hoff, rfl⟩
      · rw [if_neg hmax, if_neg hmax]
        by_cases hinc : buf.length - off < 4 + readU32BE buf off
        · rw [if_pos hinc, if_pos hinc]
          exact ⟨rfl, hoff, rfl⟩
        · rw [if_neg hinc, if_neg hinc]
          rw [show (buf.drop off).drop 4 = buf.drop (off + 4) by rw [List.drop_drop, Nat.add_comm]]
          rw [show (buf.drop off).drop (4 + readU32BE buf off) = buf.drop (off + 4 + readU32BE buf off) by
            rw [List.drop_drop]; ring_nf]
          exact ih buf (off + 4 + readU32BE buf off) _ (by omega) (by omega)
    · rw [dif_neg h4, if_neg h4]
      exact ⟨rfl, hoff, rfl⟩

theorem appendChunk_eq (buf : List Nat) (off : Nat) (chunk : List Nat) :
    appendChunk buf off chunk = (buf.drop off ++ chunk, 0) := by
  unfold appendChunk
  by_cases h1 : off > 0 ∧ off = buf.length
  · rw [if_pos h1, h1.2, List.drop_length, List.nil_append]
  · rw [if_neg h1]
    by_cases h2 : off > 0
    · rw [if_pos h2]
    · rw [if_neg h2]
      have : off = 0 := by omega
      rw [this, List.drop_zero]

theorem feedChunk_abs {M : Type} (dec : List Nat → Option M) (st : ConnState M)
    (c : List Nat) (h : st.recvOffset ≤ st.recvBuf.length) :
    absConn (feedChunk dec st c) = feedAbs dec (absConn st) c ∧
    (feedChunk dec st c).recvOffset ≤ (feedChunk dec st c).recvBuf.length := by
  by_cases hd : st.destroyed
  · rw [show feedChunk dec st c = st by rw [feedChunk, if_pos hd]]
    constructor
    · rw [show feedAbs dec (absConn st) c = absConn st by
        rw [feedAbs, if_pos (by simp [absConn, hd])]]
    · exact h
  · have hfc : feedChunk dec st c =
        ⟨st.recvBuf.drop st.recvOffset ++ c,
         (processFrames dec (st.recvBuf.drop st.recvOffset ++ c) 0 st.messages).1,
         (processFrames dec (st.recvBuf.drop st.recvOffset ++ c) 0 st.messages).2.1,
         (processFrames dec (st.recvBuf.drop st.recvOffset ++ c) 0 st.messages).2.2⟩ := by
      rw [feedChunk, if_neg hd, appendChunk_eq]
    have hps := processFrames_parseStream dec
      (st.recvBuf.drop st.recvOffset ++ c).length
      (st.recvBuf.drop st.recvOffset ++ c) 0 st.messages (by omega) (by omega)
    rw [List.drop_zero] at hps
    have hfa : feedAbs dec (absConn st) c =
        parseStream dec (st.recvBuf.drop st.recvOffset ++ c) st.messages := by
      simp [feedAbs, absConn, Bool.of_not_eq_true hd]
    obtain ⟨h1, h2, h3⟩ := hps
    constructor
    · rw [hfc, hfa]
      simp only [absConn]
      rw [h3, congrArg Prod.fst h1, congrArg Prod.snd h1]
    · rw [hfc]
      exact h2

theorem parseStream_nil {M : Type} (dec : List Nat → Option M) (acc : List M) :
    parseStream dec [] acc = ([], acc, false) := by
  rw [parseStream]
  simp

theorem parseStream_append {M : Type} (dec : List Nat → Option M) :
    ∀ (n : Nat) (s t : List Nat) (acc : List M), s.length ≤ n →
      (parseStream dec s acc).2.2 = false →
      parseStream dec (s ++ t) acc =
        parseStream dec ((parseStream dec s acc).1 ++ t) (parseStream dec s acc).2.1 := by
  intro n
  induction n with
  | zero =>
    intro s t acc hn hlive
    rw [show parseStream dec s acc = (s, acc, false) by rw [parseStream, if_neg (by omega)]]
  | succ n ih =>
    intro s t acc hn hlive
    by_cases h4 : 4 ≤ s.length
    · by_cases hmax : readU32BE s 0 > MAX_MSG_LEN
      · exfalso
        rw [parseStream, if_pos h4, if_pos hmax] at hlive
        exact Bool.noConfusion hlive
      · by_cases hinc : s.length < 4 + readU32BE s 0
        · rw [show parseStream dec s acc = (s, acc, false) by
            rw [parseStream, if_pos h4, if_neg hmax, if_pos hinc]]
        · have hstep : parseStream dec s acc =
              parseStream dec (s.drop (4 + readU32BE s 0))
                (match dec ((s.drop 4).take (readU32BE s 0)) with
                  | some m => acc ++ [m]
                  | none => acc) := by
            rw [parseStream, if_pos h4, if_neg hmax, if_neg hinc]
          have hlen : 4 ≤ (s ++ t).length := by
            rw [List.length_append]; omega
          have hread : readU32BE (s ++ t) 0 = readU32BE s 0 := readU32BE_append s t h4
          have hbytes : ((s ++ t).drop 4).take (readU32BE s 0) = (s.drop 4).take (readU32BE s 0) := by
            rw [List.drop_append_of_le_length h4,
              List.take_append_of_le_length (by rw [List.length_drop]; omega)]
          have hdrop : (s ++ t).drop (4 + readU32BE s 0) = s.drop (4 + readU32BE s 0) ++ t :=
            List.drop_append_of_le_length (by omega)
          have hstepA : parseStream dec (s ++ t) acc =
              parseStream dec (s.drop (4 + readU32BE s 0) ++ t)
                (match dec ((s.drop 4).take (readU32BE s 0)) with
                  | some m => acc ++ [m]
                  | none => acc) := by
            rw [parseStream, if_pos hlen, hread, if_neg hmax,
              if_neg (by rw [List.length_append]; omega), hbytes, hdrop]
          rw [hstepA, hstep]
          exact ih (s.drop (4 + readU32BE s 0)) t _ (by rw [List.length_drop]; omega)
            (by rw [← hstep]; exact hlive)
    · rw [show parseStream dec s acc = (s, acc, false) by rw [parseStream, if_neg h4]]

theorem parseStream_append_dead {M : Type} (dec : List Nat → Option M) :
    ∀ (n : Nat) (s t : List Nat) (acc : List M), s.length ≤ n →
      (parseStream dec s acc).2.2 = true →
      (parseStream dec (s ++ t) acc).2 = (parseStream dec s acc).2 := by
  intro n
  induction n with
  | zero =>
    intro s t acc hn hdead
    rw [parseStream, if_neg (by omega)] at hdead
    exact Bool.noConfusion hdead
  | succ n ih =>
    intro s t acc hn hdead
    by_cases h4 : 4 ≤ s.length
    · by_cases hmax : readU32BE s 0 > MAX_MSG_LEN
      · rw [show parseStream dec s acc = (s, acc, true) by
          rw [parseStream, if_pos h4, if_pos hmax]]
        rw [parseStream, if_pos (by rw [List.length_append]; omega),
          readU32BE_append s t h4, if_pos hmax]
      · by_cases hinc : s.length < 4 + readU32BE s 0
        · rw [parseStream, if_pos h4, if_neg hmax, if_pos hinc] at hdead
          exact Bool.noConfusion hdead
        · have hstep : parseStream dec s acc =
              parseStream dec (s.drop (4 + readU32BE s 0))
                (match dec ((s.drop 4).take (readU32BE s 0)) with
                  | some m => acc ++ [m]
                  | none => acc) := by
            rw [parseStream, if_pos h4, if_neg hmax, if_neg hinc]
          have hbytes : ((s ++ t).drop 4).take (readU32BE s 0) = (s.drop 4).take (readU32BE s 0) := by
            rw [List.drop_append_of_le_length h4,
              List.take_append_of_le_length (by rw [List.length_drop]; omega)]
          have hstepA : parseStream dec (s ++ t) acc =
              parseStream dec (s.drop (4 + readU32BE s 0) ++ t)
                (match dec ((s.drop 4).take (readU32BE s 0)) with
                  | some m => acc ++ [m]
                  | none => acc) := by
            rw [parseStream, if_pos (by rw [List.length_append]; omega),
              readU32BE_append s t h4, if_neg hmax,
              if_neg (by rw [List.length_append]; omega), hbytes,
              List.drop_append_of_le_length (by omega)]
          rw [hstepA, hstep]
          exact ih (s.drop (4 + readU32BE s 0)) t _ (by rw [List.length_drop]; omega)
            (by rw [← hstep]; exact hdead)
    · rw [parseStream, if_neg h4] at hdead
      exact Bool.noConfusion hdead

theorem foldl_feedAbs_dead {M : Type} (dec : List Nat → Option M)
    (cs : List (List Nat)) (a : List Nat × List M × Bool) (h : a.2.2 = true) :
    List.foldl (feedAbs dec) a cs = a := by
  induction cs with
  | nil => rfl
  | cons c cs ih =>
    rw [List.foldl_cons, show feedAbs dec a c = a by rw [feedAbs, if_pos h], ih]

theorem foldl_feedAbs_parse {M : Type} (dec : List Nat → Option M) :
    ∀ (cs : List (List Nat)) (s : List Nat) (acc : List M),
      (List.foldl (feedAbs dec) (parseStream dec s acc) cs).2
        = (parseStream dec (s ++ cs.flatten) acc).2 ∧
      ((parseStream dec (s ++ cs.flatten) acc).2.2 = false →
        List.foldl (feedAbs dec) (parseStream dec s acc) cs
          = parseStream dec (s ++ cs.flatten) acc) := by
  intro cs
  induction cs with
  | nil =>
    intro s acc
    rw [List.flatten_nil, List.append_nil, List.foldl_nil]
    exact ⟨rfl, fun _ => rfl⟩
  | cons c cs ih =>
    intro s acc
    rw [List.flatten_cons, List.foldl_cons, show s ++ (c ++ cs.flatten) = (s ++ c) ++ cs.flatten by
      rw [List.append_assoc]]
    by_cases hdead : (parseStream dec s acc).2.2
    · rw [show feedAbs dec (parseStream dec s acc) c = parseStream dec s acc by
        rw [feedAbs, if_pos hdead]]
      rw [foldl_feedAbs_dead dec cs _ hdead]
      have h1 : (parseStream dec (s ++ c) acc).2 = (parseStream dec s acc).2 :=
        parseStream_append_dead dec s.length s c acc le_rfl hdead
      have h2 : (parseStream dec ((s ++ c) ++ cs.flatten) acc).2 = (parseStream dec (s ++ c) acc).2 :=
        parseStream_append_dead dec (s ++ c).length (s ++ c) cs.flatten acc le_rfl
          (by rw [h1]; exact hdead)
      constructor
      · rw [h2, h1]
      · intro hlive
        rw [h2, h1] at hlive
        rw [hdead] at hlive
        exact absurd hlive (by simp)
    · have hlive : (parseStream dec s acc).2.2 = false := Bool.of_not_eq_true hdead
      have hfa : feedAbs dec (parseStream dec s acc) c = parseStream dec (s ++ c) acc := by
        rw [feedAbs, if_neg hdead]
        exact (parseStream_append dec s.length s c acc le_rfl hlive).symm
      rw [hfa]
      exact ih (s ++ c) acc

theorem feedChunks_abs {M : Type} (dec : List Nat → Option M) :
    ∀ (cs : List (List Nat)) (st : ConnState M), st.recvOffset ≤ st.recvBuf.length →
      absConn (feedChunks dec st cs) = List.foldl (feedAbs dec) (absConn st) cs := by
  intro cs
  induction cs with
  | nil => intro st _; rfl
  | cons c cs ih =>
    intro st h
    obtain ⟨h1, h2⟩ := feedChunk_abs dec st c h
    rw [show feedChunks dec st (c :: cs) = feedChunks dec (feedChunk dec st c) cs from rfl,
      List.foldl_cons, ← h1]
    exact ih (feedChunk dec st c) h2

theorem feedChunks_dead {M : Type} (dec : List Nat → Option M)
    (cs : List (List Nat)) (st : ConnState M) (h : st.destroyed = true) :
    feedChunks dec st cs = st := by
  induction cs with
  | nil => rfl
  | cons c cs ih =>
    rw [show feedChunks dec st (c :: cs) = feedChunks dec (feedChunk dec st c) cs from rfl,
      show feedChunk dec st c = st by rw [feedChunk, if_pos h], ih]

theorem filterMap_roundtrip {M : Type} (dec : List Nat → Option M)
    (enc : M → List Nat) (ms : List M) (h : ∀ m ∈ ms, dec (enc m) = some m) :
    (ms.map enc).filterMap dec = ms := by
  induction ms with
  | nil => rfl
  | cons m ms ih =>
    rw [List.map_cons, List.filterMap_cons, h m (List.mem_cons_self m ms),
      ih (fun x hx => h x (List.mem_cons_of_mem m hx))]

theorem parseStream_frames {M : Type} (dec : List Nat → Option M) :
    ∀ (ps : List (List Nat)) (t : List Nat) (acc : List M),
      (∀ p ∈ ps, p.length ≤ MAX_MSG_LEN) →
      parseStream dec ((ps.map encodeFrame).flatten ++ t) acc
        = parseStream dec t (acc ++ ps.filterMap dec) := by
  intro ps
  induction ps with
  | nil =>
    intro t acc _
    rw [List.map_nil, List.flatten_nil, List.nil_append, List.filterMap_nil, List.append_nil]
  | cons p ps ih =>
    intro t acc hlen
    have hp : p.length ≤ MAX_MSG_LEN := hlen p (List.mem_cons_self p ps)
    have h32 : p.length < 4294967296 := by
      have : MAX_MSG_LEN = 1048576 := rfl
      omega
    rw [List.map_cons, List.flatten_cons]
    rw [show (encodeFrame p ++ (ps.map encodeFrame).flatten) ++ t
        = encodeFrame p ++ ((ps.map encodeFrame).flatten ++ t) from List.append_assoc _ _ _]
    rw [show encodeFrame p ++ ((ps.map encodeFrame).flatten ++ t)
        = u32be p.length ++ (p ++ ((ps.map encodeFrame).flatten ++ t)) by
      rw [encodeFrame, List.append_assoc]]
    have hlenS : (u32be p.length ++ (p ++ ((ps.map encodeFrame).flatten ++ t))).length
        = 4 + (p.length + ((ps.map encodeFrame).flatten ++ t).length) := by
      simp [u32be_length, List.length_append]
    rw [parseStream]
    rw [if_pos (by rw [hlenS]; omega)]
    rw [readU32BE_u32be p.length _ h32]
    rw [if_neg (by omega)]
    rw [if_neg (by rw [hlenS]; omega)]
    have hdrop4 : (u32be p.length ++ (p ++ ((ps.map encodeFrame).flatten ++ t))).drop 4
        = p ++ ((ps.map encodeFrame).flatten ++ t) := by
      rw [show (4 : Nat) = (u32be p.length).length from (u32be_length p.length).symm,
        List.drop_left]
    have hbytes : ((u32be p.length ++ (p ++ ((ps.map encodeFrame).flatten ++ t))).drop 4).take p.length
        = p := by
      rw [hdrop4, List.take_left]
    have hdropAll : (u32be p.length ++ (p ++ ((ps.map encodeFrame).flatten ++ t))).drop (4 + p.length)
        = (ps.map encodeFrame).flatten ++ t := by
      rw [show u32be p.length ++ (p ++ ((ps.map encodeFrame).flatten ++ t))
          = (u32be p.length ++ p) ++ ((ps.map encodeFrame).flatten ++ t) from
          (List.append_assoc _ _ _).symm]
      rw [show (4 + p.length : Nat) = (u32be p.length ++ p).length by
        simp [u32be_length, List.length_append]]
      rw [List.drop_left]
    rw [hbytes, hdropAll]
    rw [ih t _ (fun q hq => hlen q (List.mem_cons_of_mem p hq))]
    rw [List.filterMap_cons]
    cases hdec : dec p with
    | none => rfl
    | some m => rw [List.append_cons]

/-- Claim C1: for every finite sequence of valid CastMessages (each encoded
payload decodes back to itself and fits the 1 MiB cap), concatenating their
encoded frames and delivering the stream to the data handler split at
arbitrary chunk boundaries decodes exactly the N messages in the original
order, with the connection alive and no unconsumed bytes. -/
theorem stream_resync {M : Type} (dec : List Nat → Option M) (enc : M → List Nat)
    (ms : List M) (cs : List (List Nat))
    (hdec : ∀ m ∈ ms, dec (enc m) = some m)
    (hlen : ∀ m ∈ ms, (enc m).length ≤ MAX_MSG_LEN)
    (hcs : cs.flatten = (ms.map (fun m => encodeFrame (enc m))).flatten) :
    (feedChunks dec initConn cs).messages = ms ∧
    (feedChunks dec initConn cs).destroyed = false ∧
    (feedChunks dec initConn cs).recvBuf.drop
      (feedChunks dec initConn cs).recvOffset = [] := by
  have habs := feedChunks_abs dec cs (initConn (M := M)) (by simp [initConn])
  have hinit : absConn (initConn (M := M)) = parseStream dec [] [] := by
    rw [parseStream_nil]; rfl
  have hfold := foldl_feedAbs_parse dec cs [] ([] : List M)
  rw [List.nil_append] at hfold
  have hparse : parseStream dec cs.flatten ([] : List M) = ([], ms, false) := by
    rw [hcs, show (ms.map (fun m => encodeFrame (enc m))).flatten
        = ((ms.map enc).map encodeFrame).flatten by rw [List.map_map]; rfl]
    have hfr := parseStream_frames dec (ms.map enc) [] ([] : List M)
      (by intro p hp; obtain ⟨m, hm, rfl⟩ := List.mem_map.mp hp; exact hlen m hm)
    rw [List.append_nil] at hfr
    rw [hfr, parseStream_nil, List.nil_append, filterMap_roundtrip dec enc ms hdec]
  have hfinal : absConn (feedChunks dec initConn cs) = ([], ms, false) := by
    rw [habs, hinit, hfold.2 (by rw [hparse]), hparse]
  exact ⟨congrArg (fun x => x.2.1) hfinal, congrArg (fun x => x.2.2) hfinal,
    congrArg (fun x => x.1) hfinal⟩

/-- Witness for C1: the two frames of the one-byte messages 5 and 7,
delivered in three chunks that split both length prefixes. -/
theorem stream_resync_witness :
    (feedChunks decByte initConn [[0,0],[0,1,5,0],[0,0,1,7]]).messages = [5, 7] ∧
    (feedChunks decByte initConn [[0,0],[0,1,5,0],[0,0,1,7]]).destroyed = false ∧
    (feedChunks decByte initConn [[0,0],[0,1,5,0],[0,0,1,7]]).recvBuf.drop
      (feedChunks decByte initConn [[0,0],[0,1,5,0],[0,0,1,7]]).recvOffset = [] :=
  stream_resync decByte encByte [5, 7] [[0,0],[0,1,5,0],[0,0,1,7]]
    (by decide) (by decide) (by decide)

/-- Claim C7: a fully-received frame whose bytes fail to decode is skipped
(the offset advances past its declared length) and every other well-formed
frame in the stream is still decoded: over any chunking of a sequence of
frames, the decoded messages are exactly the filterMap of the decoder over
the payloads, with no destroy and no desynchronization. -/
theorem decode_error_skips {M : Type} (dec : List Nat → Option M)
    (ps : List (List Nat)) (cs : List (List Nat))
    (hlen : ∀ p ∈ ps, p.length ≤ MAX_MSG_LEN)
    (hcs : cs.flatten = (ps.map encodeFrame).flatten) :
    (feedChunks dec initConn cs).messages = ps.filterMap dec ∧
    (feedChunks dec initConn cs).destroyed = false ∧
    (feedChunks dec initConn cs).recvBuf.drop
      (feedChunks dec initConn cs).recvOffset = [] := by
  have habs := feedChunks_abs dec cs (initConn (M := M)) (by simp [initConn])
  have hinit : absConn (initConn (M := M)) = parseStream dec [] [] := by
    rw [parseStream_nil]; rfl
  have hfold := foldl_feedAbs_parse dec cs [] ([] : List M)
  rw [List.nil_append] at hfold
  have hparse : parseStream dec cs.flatten ([] : List M) = ([], ps.filterMap dec, false) := by
    have hfr := parseStream_frames dec ps [] ([] : List M) hlen
    rw [List.append_nil] at hfr
    rw [hcs, hfr, parseStream_nil, List.nil_append]
  have hfinal : absConn (feedChunks dec initConn cs) = ([], ps.filterMap dec, false) := by
    rw [habs, hinit, hfold.2 (by rw [hparse]), hparse]
  exact ⟨congrArg (fun x => x.2.1) hfinal, congrArg (fun x => x.2.2) hfinal,
    congrArg (fun x => x.1) hfinal⟩

/-- Witness for C7: frames [5], [9,9], [7]; the middle frame fails the
one-byte decoder and is skipped; 5 and 7 still decode in order. -/
theorem decode_error_skips_witness :
    (feedChunks decByte initConn [[0,0,0,1,5,0,0,0,2,9,9,0,0,0,1,7]]).messages = [5, 7] ∧
    (feedChunks decByte initConn [[0,0,0,1,5,0,0,0,2,9,9,0,0,0,1,7]]).destroyed = false ∧
    (feedChunks decByte initConn [[0,0,0,1,5,0,0,0,2,9,9,0,0,0,1,7]]).recvBuf.drop
      (feedChunks decByte initConn [[0,0,0,1,5,0,0,0,2,9,9,0,0,0,1,7]]).recvOffset = [] :=
  decode_error_skips decByte [[5],[9,9],[7]] [[0,0,0,1,5,0,0,0,2,9,9,0,0,0,1,7]]
    (by decide) (by decide)

/-- Claim C6: as soon as a buffered frame's 4-byte big-endian length prefix
declares a length strictly greater than 1 MiB, the connection is destroyed:
the messages decoded before that point are kept, nothing after it is
processed, and feeding any further chunks leaves the destroyed connection
unchanged. -/
theorem oversize_destroys {M : Type} (dec : List Nat → Option M)
    (ps : List (List Nat)) (cs cs2 : List (List Nat)) (L : Nat) (junk : List Nat)
    (hlen : ∀ p ∈ ps, p.length ≤ MAX_MSG_LEN)
    (hL : MAX_MSG_LEN < L) (hL32 : L < 4294967296)
    (hcs : cs.flatten = (ps.map encodeFrame).flatten ++ (u32be L ++ junk)) :
    (feedChunks dec initConn cs).destroyed = true ∧
    (feedChunks dec initConn cs).messages = ps.filterMap dec ∧
    feedChunks dec (feedChunks dec initConn cs) cs2 = feedChunks dec initConn cs := by
  have habs := feedChunks_abs dec cs (initConn (M := M)) (by simp [initConn])
  have hinit : absConn (initConn (M := M)) = parseStream dec [] [] := by
    rw [parseStream_nil]; rfl
  have hfold := (foldl_feedAbs_parse dec cs [] ([] : List M)).1
  rw [List.nil_append] at hfold
  have hparse : (parseStream dec cs.flatten ([] : List M)).2 = (ps.filterMap dec, true) := by
    rw [hcs, parseStream_frames dec ps (u32be L ++ junk) [] hlen, List.nil_append]
    rw [parseStream, if_pos (by rw [List.length_append, u32be_length]; omega),
      readU32BE_u32be L junk hL32, if_pos hL]
  have habs2 : (absConn (feedChunks dec initConn cs)).2 = (ps.filterMap dec, true) := by
    rw [habs, hinit, hfold, hparse]
  have hdead : (feedChunks dec initConn cs).destroyed = true :=
    congrArg (fun x => x.2) habs2
  exact ⟨hdead, congrArg (fun x => x.1) habs2, feedChunks_dead dec cs2 _ hdead⟩

/-- Witness for C6: one good frame [5], then a header declaring 2 MiB; the
connection is destroyed with only 5 decoded, and a later well-formed frame
is ignored. -/
theorem oversize_destroys_witness :
    (feedChunks decByte initConn [[0,0,0,1,5,0,32,0,0,1,2,3]]).destroyed = true ∧
    (feedChunks decByte initConn [[0,0,0,1,5,0,32,0,0,1,2,3]]).messages = [5] ∧
    feedChunks decByte (feedChunks decByte initConn [[0,0,0,1,5,0,32,0,0,1,2,3]]) [[0,0,0,1,7]]
      = feedChunks decByte initConn [[0,0,0,1,5,0,32,0,0,1,2,3]] :=
  oversize_destroys decByte [[5]] [[0,0,0,1,5,0,32,0,0,1,2,3]] [[0,0,0,1,7]]
    2097152 [1,2,3] (by decide) (by decide) (by decide) (by decide)
